import Mathlib

/-!
# Shallow embedding of `ble-util` (src/src/main.rs)

The program is a BLE command-line utility.  All radio activity goes through
the `btleplug` gateway; we model each gateway call as an `Event` so that
every command denotes a pair of an event trace and an outcome.  Gateway
calls themselves are modelled as succeeding (the claims under study concern
the program's own control flow, not radio failures); the three `unwrap`
calls in the source that can abort the process are modelled as the
`Failure` outcomes below:

* `adapterMissing`      — `adapters.into_iter().nth(0).unwrap()` on an empty
  adapter list (lines 84/100/138/174);
* `propertiesMissing`   — `p.properties().await?.unwrap()` when a peripheral
  reports no properties record (lines 90/107/145/181);
* `characteristicNotFound` — `chars.iter().find(..).unwrap()` when the
  requested characteristic UUID is absent (lines 162-164/199-205); the spec's
  design-level name for this abort.

Standard-input is modelled as the list of observed `read_line` outcomes:
in Rust, `read_line` returns `Ok(n)` and *appends* the read text to the
buffer (`n = 0` and nothing appended at end-of-stream) or returns `Err`.
`LineEvent.line s` models an `Ok` outcome appending `s`; `LineEvent.fail`
models `Err`.  An exhausted event list ends the observation of the
(potentially unbounded) loop.
-/

namespace BleUtil

/-- Delivery mode of a GATT write (btleplug `WriteType`). -/
inductive WriteType where
  | withResponse
  | withoutResponse
deriving DecidableEq

/-- Characteristic property flags (btleplug `CharPropFlags`), carried only
for display in `ping`. -/
structure CharProps where
  canRead : Bool
  canWrite : Bool
  canWriteWithoutResponse : Bool
  canNotify : Bool
deriving DecidableEq

/-- A GATT characteristic: UUID (string form) plus property flags. -/
structure BleCharacteristic where
  uuid : String
  props : CharProps
deriving DecidableEq

/-- A GATT service: UUID plus its characteristics. -/
structure Service where
  uuid : String
  characteristics : List BleCharacteristic
deriving DecidableEq

/-- `PeripheralProperties`: stringified address and optional local name. -/
structure PeripheralProps where
  address : String
  localName : Option String
deriving DecidableEq

/-- A discovered peripheral: its (optional) properties record and the
services reported after discovery. -/
structure Peripheral where
  props : Option PeripheralProps
  services : List Service
deriving DecidableEq

/-- btleplug's `Peripheral::characteristics()`: the characteristics of all
services, flattened. -/
def Peripheral.characteristics (p : Peripheral) : List BleCharacteristic :=
  (p.services.map (fun s => s.characteristics)).flatten

/-- One observed outcome of `stdin().read_line(&mut buf)`:
`line s` is `Ok` appending `s` to the buffer (`s = ""` at end-of-stream),
`fail` is `Err`. -/
inductive LineEvent where
  | line (s : String)
  | fail
deriving DecidableEq

/-- Observable events of a command run: gateway calls and console output. -/
inductive Event where
  | startScan
  | sleep (secs : Nat)
  | connect (addr : String)
  | discoverServices (addr : String)
  | readChar (uuid : String)
  | writeChar (uuid : String) (payload : String) (ty : WriteType)
  | printOut (s : String)
  | printErr (s : String)
  | printDevice (address : String) (name : String)
  | printService (uuid : String)
  | printChar (uuid : String) (props : CharProps)
  | printBytes (v : List Nat)
deriving DecidableEq

/-- The three process-aborting `unwrap` failures of the source. -/
inductive Failure where
  | adapterMissing
  | propertiesMissing
  | characteristicNotFound
deriving DecidableEq

/-- The world a command runs against: how many adapters the host reports,
the peripherals discovered in the scan window, the observed `read_line`
outcomes, and the bytes a transport read returns per characteristic UUID. -/
structure Env where
  adapterCount : Nat
  peripherals : List Peripheral
  stdin : List LineEvent
  readValue : String → List Nat

/-- Rust `str::trim` on the character list: drop leading and trailing
whitespace characters. -/
def trimChars (cs : List Char) : List Char :=
  ((cs.dropWhile Char.isWhitespace).reverse.dropWhile Char.isWhitespace).reverse

/-- Rust `str::trim`: the string without its leading and trailing
whitespace. -/
def strTrim (s : String) : String := ⟨trimChars s.data⟩

/-- Line 23: `static CHAR_WRITE`. -/
def CHAR_WRITE : String := "6e400002-b5a3-f393-e0a9-e50e24dcca9e"

/-- Line 24: `static CHAR_READ`. -/
def CHAR_READ : String := "6e400003-b5a3-f393-e0a9-e50e24dcca9e"

/-- Lines 105-110 / 143-148 / 179-184: the device-location loop.  Iterates
over every discovered peripheral; each iteration unwraps the properties
record (abort if absent) and overwrites the single `dev` slot on an exact
string match of the stringified address, so the last match wins. -/
def findDevice (addr : String) : List Peripheral → Option Peripheral →
    Except Failure (Option Peripheral)
  | [], acc => .ok acc
  | p :: rest, acc =>
    match p.props with
    | none => .error .propertiesMissing
    | some pr => findDevice addr rest (if pr.address == addr then some p else acc)

/-- Lines 89-92: the print loop of `scan`; each iteration unwraps the
properties record and prints address and name (`"Unknown"` when absent). -/
def printPeripherals : List Peripheral → List Event × Except Failure Unit
  | [] => ([], .ok ())
  | p :: rest =>
    match p.props with
    | none => ([], .error .propertiesMissing)
    | some pr =>
      let t := printPeripherals rest
      (Event.printDevice pr.address (pr.localName.getD "Unknown") :: t.1, t.2)

/-- Lines 81-95: `scan_devices`. -/
def scan_devices (env : Env) : List Event × Except Failure Unit :=
  if env.adapterCount = 0 then ([], .error .adapterMissing)
  else
    let t := printPeripherals env.peripherals
    (Event.startScan :: Event.sleep 3 :: t.1, t.2)

/-- Lines 97-133: `ping`.  Scan, locate, connect, discover, then print every
service UUID and each characteristic's UUID and properties. -/
def ping (env : Env) (addr : String) : List Event × Except Failure Unit :=
  if env.adapterCount = 0 then ([], .error .adapterMissing)
  else
    match findDevice addr env.peripherals none with
    | .error f => ([Event.startScan, Event.sleep 3], .error f)
    | .ok none =>
      ([Event.startScan, Event.sleep 3, Event.printErr "Unable to find device"], .ok ())
    | .ok (some dev) =>
      (Event.startScan :: Event.sleep 3 :: Event.connect addr ::
        Event.printOut "Connected" :: Event.discoverServices addr ::
        Event.printOut "Services:" ::
        (dev.services.map (fun s =>
          Event.printService s.uuid ::
            s.characteristics.map (fun c => Event.printChar c.uuid c.props))).flatten,
       .ok ())

/-- Lines 135-169: `read`.  Scan, locate, connect, discover, resolve the
characteristic by exact UUID-string match over the flattened characteristic
set (`unwrap` abort if absent), then issue the transport read and print the
returned bytes. -/
def read (env : Env) (addr char_id : String) : List Event × Except Failure Unit :=
  if env.adapterCount = 0 then ([], .error .adapterMissing)
  else
    match findDevice addr env.peripherals none with
    | .error f => ([Event.startScan, Event.sleep 3], .error f)
    | .ok none =>
      ([Event.startScan, Event.sleep 3, Event.printErr "Unable to find device"], .ok ())
    | .ok (some dev) =>
      let t := [Event.startScan, Event.sleep 3, Event.connect addr,
        Event.printOut "Connected", Event.discoverServices addr]
      match dev.characteristics.find? (fun a => a.uuid == char_id) with
      | none => (t, .error .characteristicNotFound)
      | some ch =>
        (t ++ [Event.readChar ch.uuid, Event.printBytes (env.readValue ch.uuid)], .ok ())

/-- Lines 207-214: the interactive loop of `write`.  Each `Ok` outcome of
`read_line` appends its text to the (never cleared) buffer; the loop then
writes the leading-and-trailing-whitespace-trimmed buffer without response,
prints the unit result, issues a read from the read characteristic and
prints its bytes.  An `Err` outcome exits the loop; an `Ok` outcome — end
of stream included — continues it. -/
def writeLoop (rv : String → List Nat) (wUuid rUuid : String) :
    List LineEvent → String → List Event
  | [], _ => []
  | .fail :: _, _ => []
  | .line s :: rest, buf =>
    Event.writeChar wUuid (strTrim (buf ++ s)) WriteType.withoutResponse ::
      Event.printOut "()" :: Event.readChar rUuid :: Event.printBytes (rv rUuid) ::
      writeLoop rv wUuid rUuid rest (buf ++ s)

/-- Lines 171-218: `write`.  Scan (2-second window), locate, connect,
discover, resolve the fixed pair `CHAR_WRITE`/`CHAR_READ` by exact
UUID-string match over the flattened characteristic set (`unwrap` abort if
either is absent), then run the interactive loop with an empty buffer. -/
def write (env : Env) (addr : String) : List Event × Except Failure Unit :=
  if env.adapterCount = 0 then ([], .error .adapterMissing)
  else
    match findDevice addr env.peripherals none with
    | .error f => ([Event.startScan, Event.sleep 2], .error f)
    | .ok none =>
      ([Event.startScan, Event.sleep 2, Event.printErr "Unable to find device"], .ok ())
    | .ok (some dev) =>
      let t := [Event.startScan, Event.sleep 2, Event.connect addr,
        Event.printOut "Connected", Event.discoverServices addr]
      match dev.characteristics.find? (fun a => a.uuid == CHAR_WRITE) with
      | none => (t, .error .characteristicNotFound)
      | some chW =>
        match dev.characteristics.find? (fun a => a.uuid == CHAR_READ) with
        | none => (t, .error .characteristicNotFound)
        | some chR =>
          (t ++ writeLoop env.readValue chW.uuid chR.uuid env.stdin "", .ok ())

/-- Lines 9-21 / 220-222: the help text, printed to the diagnostic stream. -/
def HELP_MSG : String :=
  "ble-util v0.1\nDevin Vander Stelt <devin@vstelt.dev>\n\nUsage:\n    ble-util <command> <args>\n\nCommands:\n    scan                scan for and print nearby devices\n    ping <addr>         connect to device and print its services and characteristics\n    read <addr> <char>  connect to the device and read the value of the characteristic\n    write <addr>        connect to the device and write a value to the characteristic via stdin\n    help                print this help message\n"

/-- Lines 26-79: `main`.  Dispatches on `args[1]`; note that the `write`
arm consumes only `args[2]` (the address) and ignores any further
argument. -/
def main (env : Env) (args : List String) : List Event × Except Failure Unit :=
  match args.get? 1 with
  | none => ([Event.printErr "No command specified\n", Event.printErr HELP_MSG], .ok ())
  | some cmd =>
    if cmd = "scan" then scan_devices env
    else if cmd = "ping" then
      match args.get? 2 with
      | none => ([Event.printErr "No address specified\n", Event.printErr HELP_MSG], .ok ())
      | some a => ping env a
    else if cmd = "read" then
      match args.get? 2 with
      | none => ([Event.printErr "No address specified\n", Event.printErr HELP_MSG], .ok ())
      | some a =>
        match args.get? 3 with
        | none =>
          ([Event.printErr "No characteristic uuid specified\n", Event.printErr HELP_MSG],
           .ok ())
        | some c => read env a c
    else if cmd = "write" then
      match args.get? 2 with
      | none => ([Event.printErr "No address specified\n", Event.printErr HELP_MSG], .ok ())
      | some a => write env a
    else if cmd = "help" then ([Event.printErr HELP_MSG], .ok ())
    else
      ([Event.printErr ("Unrecognized command '" ++ cmd ++ "'\n"),
        Event.printErr HELP_MSG], .ok ())

/-- Is this event a characteristic access (transport read or write)? -/
def Event.isCharAccess : Event → Bool
  | .readChar _ => true
  | .writeChar _ _ _ => true
  | _ => false

/-- Is this event a connect attempt? -/
def Event.isConnect : Event → Bool
  | .connect _ => true
  | _ => false

/-- Is this event a service-discovery call? -/
def Event.isDiscover : Event → Bool
  | .discoverServices _ => true
  | _ => false

/-- The payloads of the transport writes of a trace, in order. -/
def payloadsOf (t : List Event) : List String :=
  t.filterMap (fun e => match e with
    | .writeChar _ p _ => some p
    | _ => none)

/-- The (uuid, payload, mode) triples of the transport writes of a trace. -/
def writesOf (t : List Event) : List (String × String × WriteType) :=
  t.filterMap (fun e => match e with
    | .writeChar u p ty => some (u, p, ty)
    | _ => none)

/-- The UUIDs of the transport reads of a trace, in order. -/
def readsOf (t : List Event) : List String :=
  t.filterMap (fun e => match e with
    | .readChar u => some u
    | _ => none)

/-- Every characteristic access of the trace is preceded by a connect which
is itself followed, still before the access, by a service discovery. -/
def setupBeforeAccess (t : List Event) : Prop :=
  ∀ i e, t.get? i = some e → e.isCharAccess = true →
    ∃ j k ej ek, j < k ∧ k < i ∧ t.get? j = some ej ∧ ej.isConnect = true ∧
      t.get? k = some ek ∧ ek.isDiscover = true

/-- Does peripheral `p` report properties whose stringified address equals
`addr` (exact, case-sensitive string equality)? -/
def matchesAddr (addr : String) (p : Peripheral) : Bool :=
  match p.props with
  | some pr => pr.address == addr
  | none => false

/-- Concatenation of a list of strings, in order. -/
def concatStrs : List String → String
  | [] => ""
  | s :: rest => s ++ concatStrs rest

/-- No property flags set; flags are display-only in the claims below. -/
def cpNone : CharProps := ⟨false, false, false, false⟩

/-- A peripheral exposing the UART-over-BLE pair plus one extra
characteristic, used by the concrete scenarios. -/
def uartDev : Peripheral :=
  { props := some { address := "AA:BB:CC:DD:EE:01", localName := some "Sensor" }
    services := [{ uuid := "6e400001-b5a3-f393-e0a9-e50e24dcca9e"
                   characteristics :=
                     [{ uuid := "0000fff1-0000-1000-8000-00805f9b34fb", props := cpNone },
                      { uuid := CHAR_WRITE, props := cpNone },
                      { uuid := CHAR_READ, props := cpNone }] }] }

/-- Scenario 4 world: the UART peripheral, stdin `"a\nb\n"` followed by
end-of-stream (`read_line` keeps returning `Ok(0)`, modelled by two observed
empty-append outcomes). -/
def scenario4Env : Env :=
  { adapterCount := 1
    peripherals := [uartDev]
    stdin := [.line "a\n", .line "b\n", .line "", .line ""]
    readValue := fun _ => [] }

/-- End-of-stream world for C4: one line, then two observed end-of-stream
`Ok` outcomes of `read_line`. -/
def eofEnv : Env :=
  { adapterCount := 1
    peripherals := [uartDev]
    stdin := [.line "a\n", .line "", .line ""]
    readValue := fun _ => [] }

/-- World for C7: the UART peripheral and stdin content `"hello"` (one
`read_line` outcome appending `"hello"`, no trailing newline). -/
def helloEnv : Env :=
  { adapterCount := 1
    peripherals := [uartDev]
    stdin := [.line "hello"]
    readValue := fun _ => [] }

/-- A second peripheral with the same address, to exercise the
last-match-wins quirk. -/
def uartDev2 : Peripheral :=
  { props := some { address := "AA:BB:CC:DD:EE:01", localName := some "Sensor2" }
    services := [] }

/-- Two discovered peripherals sharing one address. -/
def dupEnv : Env :=
  { adapterCount := 1
    peripherals := [uartDev, uartDev2]
    stdin := []
    readValue := fun _ => [] }

/-- A peripheral without the UART pair and without the uuid `"zz"`. -/
def bareDev : Peripheral :=
  { props := some { address := "BB:BB:CC:DD:EE:02", localName := none }
    services := [{ uuid := "svc"
                   characteristics :=
                     [{ uuid := "0000fff1-0000-1000-8000-00805f9b34fb",
                        props := cpNone }] }] }

/-- World containing only `bareDev`. -/
def bareEnv : Env :=
  { adapterCount := 1
    peripherals := [bareDev]
    stdin := []
    readValue := fun _ => [] }

/-- A host reporting no BLE adapter. -/
def noAdapterEnv : Env :=
  { adapterCount := 0
    peripherals := []
    stdin := []
    readValue := fun _ => [] }

/-- A discovered peripheral with no properties record. -/
def badPropsEnv : Env :=
  { adapterCount := 1
    peripherals := [{ props := none, services := [] }]
    stdin := []
    readValue := fun _ => [] }

lemma findDevice_eq (addr : String) :
    ∀ (ps : List Peripheral) (acc : Option Peripheral),
      (∀ p ∈ ps, p.props.isSome) →
      findDevice addr ps acc =
        .ok (match (ps.filter (matchesAddr addr)).getLast? with
             | some q => some q
             | none => acc) := by
  intro ps
  induction ps with
  | nil => intro acc _; rfl
  | cons p rest ih =>
    intro acc h
    obtain ⟨pr, hpr⟩ := Option.isSome_iff_exists.mp (h p (List.mem_cons_self p rest))
    have hrest : ∀ q ∈ rest, q.props.isSome := fun q hq => h q (List.mem_cons_of_mem p hq)
    have hmatch : matchesAddr addr p = (pr.address == addr) := by
      unfold matchesAddr; rw [hpr]
    simp only [findDevice, hpr]
    rw [ih _ hrest]
    by_cases hm : (pr.address == addr) = true
    · have hfil : (p :: rest).filter (matchesAddr addr)
          = p :: rest.filter (matchesAddr addr) := by
        rw [List.filter_cons]; simp [hmatch, hm]
      rw [hfil, hm]
      simp only [if_true]
      cases hfl : rest.filter (matchesAddr addr) with
      | nil => rfl
      | cons x xs =>
        rw [List.getLast?_cons_cons]
        obtain ⟨y, hy⟩ := Option.isSome_iff_exists.mp
          (List.getLast?_isSome.mpr (List.cons_ne_nil x xs))
        rw [hy]
    · have hfil : (p :: rest).filter (matchesAddr addr)
          = rest.filter (matchesAddr addr) := by
        rw [List.filter_cons]; simp [hmatch, hm]
      rw [hfil]
      simp [hm]

lemma findDevice_propsMissing (addr : String) :
    ∀ (ps : List Peripheral) (acc : Option Peripheral),
      (∃ p ∈ ps, p.props = none) →
      findDevice addr ps acc = .error .propertiesMissing := by
  intro ps
  induction ps with
  | nil =>
    intro acc h
    obtain ⟨p, hp, _⟩ := h
    exact absurd hp (List.not_mem_nil p)
  | cons p rest ih =>
    intro acc h
    obtain ⟨q, hq, hqn⟩ := h
    cases hpp : p.props with
    | none => simp [findDevice, hpp]
    | some pr =>
      simp only [findDevice, hpp]
      apply ih
      rcases List.mem_cons.mp hq with h1 | h1
      · subst h1; rw [hpp] at hqn; cases hqn
      · exact ⟨q, h1, hqn⟩

lemma printPeripherals_ok :
    ∀ ps : List Peripheral, (∀ p ∈ ps, p.props.isSome) →
      (printPeripherals ps).2 = .ok () := by
  intro ps
  induction ps with
  | nil => intro _; rfl
  | cons p rest ih =>
    intro h
    obtain ⟨pr, hpr⟩ := Option.isSome_iff_exists.mp (h p (List.mem_cons_self p rest))
    simp only [printPeripherals, hpr]
    exact ih fun q hq => h q (List.mem_cons_of_mem p hq)

lemma printPeripherals_propsMissing :
    ∀ ps : List Peripheral, (∃ p ∈ ps, p.props = none) →
      (printPeripherals ps).2 = .error .propertiesMissing := by
  intro ps
  induction ps with
  | nil =>
    intro h
    obtain ⟨p, hp, _⟩ := h
    exact absurd hp (List.not_mem_nil p)
  | cons p rest ih =>
    intro h
    obtain ⟨q, hq, hqn⟩ := h
    cases hpp : p.props with
    | none => simp [printPeripherals, hpp]
    | some pr =>
      simp only [printPeripherals, hpp]
      apply ih
      rcases List.mem_cons.mp hq with h1 | h1
      · subst h1; rw [hpp] at hqn; cases hqn
      · exact ⟨q, h1, hqn⟩

lemma writeLoop_targets (rv : String → List Nat) (w r : String) :
    ∀ (evs : List LineEvent) (buf : String), ∀ e ∈ writeLoop rv w r evs buf,
      (∀ u p ty, e = .writeChar u p ty → u = w ∧ ty = .withoutResponse) ∧
      (∀ u, e = .readChar u → u = r) := by
  intro evs
  induction evs with
  | nil => intro buf e he; cases he
  | cons ev rest ih =>
    intro buf e he
    cases ev with
    | fail => cases he
    | line s =>
      simp only [writeLoop, List.mem_cons] at he
      rcases he with h | h | h | h | h
      · subst h
        constructor
        · intro u p ty hh; cases hh; exact ⟨rfl, rfl⟩
        · intro u hh; cases hh
      · subst h
        constructor
        · intro u p ty hh; cases hh
        · intro u hh; cases hh
      · subst h
        constructor
        · intro u p ty hh; cases hh
        · intro u hh; cases hh; rfl
      · subst h
        constructor
        · intro u p ty hh; cases hh
        · intro u hh; cases hh
      · exact ih (buf ++ s) e h

lemma payloadsOf_writeLoop_get (rv : String → List Nat) (w r : String) :
    ∀ (ls : List String) (buf : String) (k : Nat), k < ls.length →
      (payloadsOf (writeLoop rv w r (ls.map .line) buf)).get? k
        = some (strTrim (buf ++ concatStrs (ls.take (k + 1)))) := by
  intro ls
  induction ls with
  | nil => intro buf k hk; simp at hk
  | cons s rest ih =>
    intro buf k hk
    simp only [List.map_cons, writeLoop, payloadsOf, List.filterMap_cons]
    cases k with
    | zero =>
      simp only [List.get?]
      rw [List.take_succ_cons, List.take_zero]
      simp [concatStrs, String.append_empty]
    | succ k =>
      have hk' : k < rest.length := by simpa using hk
      have := ih (buf ++ s) k hk'
      simp only [payloadsOf] at this
      simp only [List.get?]
      rw [this, List.take_succ_cons]
      simp [concatStrs, String.append_assoc]

lemma payloadsOf_writeLoop_length (rv : String → List Nat) (w r : String) :
    ∀ (ls : List String) (buf : String),
      (payloadsOf (writeLoop rv w r (ls.map .line) buf)).length = ls.length := by
  intro ls
  induction ls with
  | nil => intro buf; rfl
  | cons s rest ih =>
    intro buf
    simp only [List.map_cons, writeLoop, payloadsOf, List.filterMap_cons]
    simp only [payloadsOf] at ih
    simp [ih (buf ++ s)]

lemma readsOf_writeLoop_length (rv : String → List Nat) (w r : String) :
    ∀ (ls : List String) (buf : String),
      (readsOf (writeLoop rv w r (ls.map .line) buf)).length = ls.length := by
  intro ls
  induction ls with
  | nil => intro buf; rfl
  | cons s rest ih =>
    intro buf
    simp only [List.map_cons, writeLoop, readsOf, List.filterMap_cons]
    simp only [readsOf] at ih
    simp [ih (buf ++ s)]

lemma setupBeforeAccess_of_no_access {t : List Event}
    (h : ∀ e ∈ t, e.isCharAccess = false) : setupBeforeAccess t := by
  intro i e hget hacc
  exact absurd hacc (by simp [h e (List.get?_mem hget)])

lemma setupBeforeAccess_shape (a : String) (n : Nat) (s : String) (rest : List Event) :
    setupBeforeAccess (Event.startScan :: Event.sleep n :: Event.connect a ::
      Event.printOut s :: Event.discoverServices a :: rest) := by
  intro i e hget hacc
  refine ⟨2, 4, Event.connect a, Event.discoverServices a, by omega, ?_, rfl, rfl, rfl, rfl⟩
  match i, hget with
  | 0, h => rw [show e = Event.startScan from (Option.some_inj.mp h).symm] at hacc; cases hacc
  | 1, h => rw [show e = Event.sleep n from (Option.some_inj.mp h).symm] at hacc; cases hacc
  | 2, h => rw [show e = Event.connect a from (Option.some_inj.mp h).symm] at hacc; cases hacc
  | 3, h => rw [show e = Event.printOut s from (Option.some_inj.mp h).symm] at hacc; cases hacc
  | 4, h =>
    rw [show e = Event.discoverServices a from (Option.some_inj.mp h).symm] at hacc; cases hacc
  | (m + 5), h => omega

lemma no_access_setup (a : String) (n : Nat) :
    ∀ e ∈ [Event.startScan, Event.sleep n, Event.connect a,
      Event.printOut "Connected", Event.discoverServices a], e.isCharAccess = false := by
  intro e he
  simp only [List.mem_cons, List.not_mem_nil, or_false] at he
  rcases he with rfl | rfl | rfl | rfl | rfl <;> rfl

/-- C5: for every target address present among the discovered peripherals,
device location returns a peripheral whose stringified address equals the
requested address exactly (case-sensitive string comparison), and when
several discovered peripherals match, the last one enumerated is returned. -/
theorem locate_returns_last_exact_match (env : Env) (addr : String)
    (hprops : ∀ p ∈ env.peripherals, p.props.isSome)
    (hmatch : env.peripherals.filter (matchesAddr addr) ≠ []) :
    ∃ p pr, findDevice addr env.peripherals none = .ok (some p) ∧
      (env.peripherals.filter (matchesAddr addr)).getLast? = some p ∧
      p.props = some pr ∧ pr.address = addr := by
  obtain ⟨p, hp⟩ := Option.isSome_iff_exists.mp (List.getLast?_isSome.mpr hmatch)
  have hmem : p ∈ env.peripherals.filter (matchesAddr addr) := by
    obtain ⟨hne, rfl⟩ := List.mem_getLast?_eq_getLast (Option.mem_def.mpr hp)
    exact List.getLast_mem hne
  have hm : matchesAddr addr p = true := (List.mem_filter.mp hmem).2
  cases hpp : p.props with
  | none => simp [matchesAddr, hpp] at hm
  | some pr =>
    have haddr : pr.address = addr := by simpa [matchesAddr, hpp] using hm
    refine ⟨p, pr, ?_, hp, hpp, haddr⟩
    rw [findDevice_eq addr _ none hprops, hp]

/-- C2: for every target address not present among the discovered
peripherals, the ping, read, and write commands print a diagnostic, make no
connect attempt, and complete successfully (`Ok`, i.e. exit zero). -/
theorem device_not_found_clean_exit (env : Env) (addr uuid : String)
    (hadapt : env.adapterCount ≠ 0)
    (hprops : ∀ p ∈ env.peripherals, p.props.isSome)
    (habs : ∀ p ∈ env.peripherals, matchesAddr addr p = false) :
    ping env addr
      = ([.startScan, .sleep 3, .printErr "Unable to find device"], .ok ()) ∧
    read env addr uuid
      = ([.startScan, .sleep 3, .printErr "Unable to find device"], .ok ()) ∧
    write env addr
      = ([.startScan, .sleep 2, .printErr "Unable to find device"], .ok ()) := by
  have hfil : env.peripherals.filter (matchesAddr addr) = [] :=
    List.filter_eq_nil_iff.mpr (fun a ha => by simp [habs a ha])
  have hfd : findDevice addr env.peripherals none = .ok none := by
    rw [findDevice_eq addr _ none hprops, hfil]; rfl
  refine ⟨?_, ?_, ?_⟩ <;> simp [ping, read, write, hadapt, hfd]

/-- C1: characteristic resolution for read and write is exact UUID-string
match over the flattened characteristic set; a requested UUID absent from
that set makes the operation abort with `characteristicNotFound` (the
design-level surface of the source's `unwrap` failure) before any read or
write transport call.  The read half needs only the requested uuid absent;
the write half needs its own requested uuid — one of the fixed pair
`CHAR_WRITE`/`CHAR_READ` — absent. -/
theorem absent_characteristic_aborts_without_access (env : Env)
    (addr uuid : String) (dev : Peripheral)
    (hadapt : env.adapterCount ≠ 0)
    (hdev : findDevice addr env.peripherals none = .ok (some dev))
    (habs : ∀ c ∈ dev.characteristics, c.uuid ≠ uuid) :
    ((read env addr uuid).2 = .error .characteristicNotFound ∧
      ∀ e ∈ (read env addr uuid).1, e.isCharAccess = false) ∧
    (((∀ c ∈ dev.characteristics, c.uuid ≠ CHAR_WRITE) ∨
      (∀ c ∈ dev.characteristics, c.uuid ≠ CHAR_READ)) →
      (write env addr).2 = .error .characteristicNotFound ∧
      ∀ e ∈ (write env addr).1, e.isCharAccess = false) := by
  have hread : read env addr uuid
      = ([.startScan, .sleep 3, .connect addr, .printOut "Connected",
          .discoverServices addr], .error .characteristicNotFound) := by
    have hfind : dev.characteristics.find? (fun a => a.uuid == uuid) = none :=
      List.find?_eq_none.mpr (fun x hx => by simp [habs x hx])
    simp [read, hadapt, hdev, hfind]
  refine ⟨⟨by rw [hread], by rw [hread]; exact no_access_setup addr 3⟩, ?_⟩
  intro hW
  have hwrite : write env addr
      = ([.startScan, .sleep 2, .connect addr, .printOut "Connected",
          .discoverServices addr], .error .characteristicNotFound) := by
    rcases hW with hW | hW
    · have hfw : dev.characteristics.find? (fun a => a.uuid == CHAR_WRITE) = none :=
        List.find?_eq_none.mpr (fun x hx => by simp [hW x hx])
      simp [write, hadapt, hdev, hfw]
    · have hfr : dev.characteristics.find? (fun a => a.uuid == CHAR_READ) = none :=
        List.find?_eq_none.mpr (fun x hx => by simp [hW x hx])
      cases hfw : dev.characteristics.find? (fun a => a.uuid == CHAR_WRITE) with
      | none => simp [write, hadapt, hdev, hfw]
      | some chW => simp [write, hadapt, hdev, hfw, hfr]
  rw [hwrite]
  exact ⟨rfl, no_access_setup addr 2⟩

lemma fixed_target_of_no_access {w r : String} {e : Event} (h : e.isCharAccess = false) :
    (∀ u p ty, e = .writeChar u p ty → u = w ∧ ty = .withoutResponse) ∧
    (∀ u, e = .readChar u → u = r) := by
  constructor
  · intro u p ty hh; subst hh; simp [Event.isCharAccess] at h
  · intro u hh; subst hh; simp [Event.isCharAccess] at h

lemma ping_services_no_access (dev : Peripheral) :
    ∀ e ∈ (dev.services.map (fun s => Event.printService s.uuid ::
        s.characteristics.map (fun c => Event.printChar c.uuid c.props))).flatten,
      e.isCharAccess = false := by
  intro e he
  simp only [List.mem_flatten, List.mem_map] at he
  obtain ⟨l, ⟨s, _, rfl⟩, hel⟩ := he
  rcases List.mem_cons.mp hel with rfl | h
  · rfl
  · obtain ⟨c, _, rfl⟩ := List.mem_map.mp h
    rfl

/-- C6: the interactive write/read mode resolves the two fixed UART-over-BLE
UUIDs (`6e400002-…` for writing, `6e400003-…` for reading) rather than a
caller-supplied UUID, and every write it issues uses write-without-response. -/
theorem write_mode_fixed_uuids_without_response (env : Env) (addr : String) :
    CHAR_WRITE = "6e400002-b5a3-f393-e0a9-e50e24dcca9e" ∧
    CHAR_READ = "6e400003-b5a3-f393-e0a9-e50e24dcca9e" ∧
    ∀ e ∈ (write env addr).1,
      (∀ u p ty, e = .writeChar u p ty → u = CHAR_WRITE ∧ ty = .withoutResponse) ∧
      (∀ u, e = .readChar u → u = CHAR_READ) := by
  refine ⟨rfl, rfl, ?_⟩
  intro e he
  by_cases h0 : env.adapterCount = 0
  · simp [write, h0] at he
  · cases hfd : findDevice addr env.peripherals none with
    | error f =>
      rw [show (write env addr).1 = [Event.startScan, Event.sleep 2] from by
        simp [write, h0, hfd]] at he
      simp only [List.mem_cons, List.not_mem_nil, or_false] at he
      rcases he with rfl | rfl <;> exact fixed_target_of_no_access rfl
    | ok od =>
      cases od with
      | none =>
        rw [show (write env addr).1 = [Event.startScan, Event.sleep 2,
            Event.printErr "Unable to find device"] from by simp [write, h0, hfd]] at he
        simp only [List.mem_cons, List.not_mem_nil, or_false] at he
        rcases he with rfl | rfl | rfl <;> exact fixed_target_of_no_access rfl
      | some dev =>
        cases hfw : dev.characteristics.find? (fun a => a.uuid == CHAR_WRITE) with
        | none =>
          rw [show (write env addr).1 = [Event.startScan, Event.sleep 2,
              Event.connect addr, Event.printOut "Connected",
              Event.discoverServices addr] from by simp [write, h0, hfd, hfw]] at he
          exact fixed_target_of_no_access (no_access_setup addr 2 e he)
        | some chW =>
          cases hfr : dev.characteristics.find? (fun a => a.uuid == CHAR_READ) with
          | none =>
            rw [show (write env addr).1 = [Event.startScan, Event.sleep 2,
                Event.connect addr, Event.printOut "Connected",
                Event.discoverServices addr] from by simp [write, h0, hfd, hfw, hfr]] at he
            exact fixed_target_of_no_access (no_access_setup addr 2 e he)
          | some chR =>
            have hwu : chW.uuid = CHAR_WRITE := by simpa using List.find?_some hfw
            have hru : chR.uuid = CHAR_READ := by simpa using List.find?_some hfr
            rw [show (write env addr).1 = Event.startScan :: Event.sleep 2 ::
                Event.connect addr :: Event.printOut "Connected" ::
                Event.discoverServices addr ::
                writeLoop env.readValue chW.uuid chR.uuid env.stdin "" from by
              simp [write, h0, hfd, hfw, hfr]] at he
            simp only [List.mem_cons] at he
            rcases he with rfl | rfl | rfl | rfl | rfl | h
            · exact fixed_target_of_no_access rfl
            · exact fixed_target_of_no_access rfl
            · exact fixed_target_of_no_access rfl
            · exact fixed_target_of_no_access rfl
            · exact fixed_target_of_no_access rfl
            · have := writeLoop_targets env.readValue chW.uuid chR.uuid env.stdin "" e h
              rw [hwu, hru] at this
              exact this

/-- C8: `ping` (Enumerate) never issues a characteristic read or write, and
in every mode any characteristic access is preceded by a connect followed by
a service discovery. -/
theorem modes_connect_then_discover_before_access (env : Env) (addr uuid : String) :
    (∀ e ∈ (ping env addr).1, e.isCharAccess = false) ∧
    setupBeforeAccess (ping env addr).1 ∧
    setupBeforeAccess (read env addr uuid).1 ∧
    setupBeforeAccess (write env addr).1 := by
  have hping : ∀ e ∈ (ping env addr).1, e.isCharAccess = false := by
    intro e he
    by_cases h0 : env.adapterCount = 0
    · simp [ping, h0] at he
    · cases hfd : findDevice addr env.peripherals none with
      | error f =>
        rw [show (ping env addr).1 = [Event.startScan, Event.sleep 3] from by
          simp [ping, h0, hfd]] at he
        simp only [List.mem_cons, List.not_mem_nil, or_false] at he
        rcases he with rfl | rfl <;> rfl
      | ok od =>
        cases od with
        | none =>
          rw [show (ping env addr).1 = [Event.startScan, Event.sleep 3,
              Event.printErr "Unable to find device"] from by simp [ping, h0, hfd]] at he
          simp only [List.mem_cons, List.not_mem_nil, or_false] at he
          rcases he with rfl | rfl | rfl <;> rfl
        | some dev =>
          rw [show (ping env addr).1 = Event.startScan :: Event.sleep 3 ::
              Event.connect addr :: Event.printOut "Connected" ::
              Event.discoverServices addr :: Event.printOut "Services:" ::
              (dev.services.map (fun s => Event.printService s.uuid ::
                s.characteristics.map (fun c => Event.printChar c.uuid c.props))).flatten
              from by simp [ping, h0, hfd]] at he
          simp only [List.mem_cons] at he
          rcases he with rfl | rfl | rfl | rfl | rfl | rfl | h
          · rfl
          · rfl
          · rfl
          · rfl
          · rfl
          · rfl
          · exact ping_services_no_access dev e h
  refine ⟨hping, setupBeforeAccess_of_no_access hping, ?_, ?_⟩
  · by_cases h0 : env.adapterCount = 0
    · rw [show (read env addr uuid).1 = [] from by simp [read, h0]]
      exact setupBeforeAccess_of_no_access (by intro e he; cases he)
    · cases hfd : findDevice addr env.peripherals none with
      | error f =>
        rw [show (read env addr uuid).1 = [Event.startScan, Event.sleep 3] from by
          simp [read, h0, hfd]]
        refine setupBeforeAccess_of_no_access ?_
        intro e he
        simp only [List.mem_cons, List.not_mem_nil, or_false] at he
        rcases he with rfl | rfl <;> rfl
      | ok od =>
        cases od with
        | none =>
          rw [show (read env addr uuid).1 = [Event.startScan, Event.sleep 3,
              Event.printErr "Unable to find device"] from by simp [read, h0, hfd]]
          refine setupBeforeAccess_of_no_access ?_
          intro e he
          simp only [List.mem_cons, List.not_mem_nil, or_false] at he
          rcases he with rfl | rfl | rfl <;> rfl
        | some dev =>
          cases hfc : dev.characteristics.find? (fun a => a.uuid == uuid) with
          | none =>
            rw [show (read env addr uuid).1 = [Event.startScan, Event.sleep 3,
                Event.connect addr, Event.printOut "Connected",
                Event.discoverServices addr] from by simp [read, h0, hfd, hfc]]
            exact setupBeforeAccess_of_no_access (no_access_setup addr 3)
          | some ch =>
            rw [show (read env addr uuid).1 = Event.startScan :: Event.sleep 3 ::
                Event.connect addr :: Event.printOut "Connected" ::
                Event.discoverServices addr ::
                [Event.readChar ch.uuid, Event.printBytes (env.readValue ch.uuid)] from by
              simp [read, h0, hfd, hfc]]
            exact setupBeforeAccess_shape addr 3 "Connected" _
  · by_cases h0 : env.adapterCount = 0
    · rw [show (write env addr).1 = [] from by simp [write, h0]]
      exact setupBeforeAccess_of_no_access (by intro e he; cases he)
    · cases hfd : findDevice addr env.peripherals none with
      | error f =>
        rw [show (write env addr).1 = [Event.startScan, Event.sleep 2] from by
          simp [write, h0, hfd]]
        refine setupBeforeAccess_of_no_access ?_
        intro e he
        simp only [List.mem_cons, List.not_mem_nil, or_false] at he
        rcases he with rfl | rfl <;> rfl
      | ok od =>
        cases od with
        | none =>
          rw [show (write env addr).1 = [Event.startScan, Event.sleep 2,
              Event.printErr "Unable to find device"] from by simp [write, h0, hfd]]
          refine setupBeforeAccess_of_no_access ?_
          intro e he
          simp only [List.mem_cons, List.not_mem_nil, or_false] at he
          rcases he with rfl | rfl | rfl <;> rfl
        | some dev =>
          cases hfw : dev.characteristics.find? (fun a => a.uuid == CHAR_WRITE) with
          | none =>
            rw [show (write env addr).1 = [Event.startScan, Event.sleep 2,
                Event.connect addr, Event.printOut "Connected",
                Event.discoverServices addr] from by simp [write, h0, hfd, hfw]]
            exact setupBeforeAccess_of_no_access (no_access_setup addr 2)
          | some chW =>
            cases hfr : dev.characteristics.find? (fun a => a.uuid == CHAR_READ) with
            | none =>
              rw [show (write env addr).1 = [Event.startScan, Event.sleep 2,
                  Event.connect addr, Event.printOut "Connected",
                  Event.discoverServices addr] from by simp [write, h0, hfd, hfw, hfr]]
              exact setupBeforeAccess_of_no_access (no_access_setup addr 2)
            | some chR =>
              rw [show (write env addr).1 = Event.startScan :: Event.sleep 2 ::
                  Event.connect addr :: Event.printOut "Connected" ::
                  Event.discoverServices addr ::
                  writeLoop env.readValue chW.uuid chR.uuid env.stdin "" from by
                simp [write, h0, hfd, hfw, hfr]]
              exact setupBeforeAccess_shape addr 2 "Connected" _

lemma ping_result_ok (env : Env) (addr : String)
    (h0 : ¬ env.adapterCount = 0) (hall : ∀ p ∈ env.peripherals, p.props.isSome) :
    (ping env addr).2 = .ok () := by
  have hfd := findDevice_eq addr env.peripherals none hall
  cases hm : (env.peripherals.filter (matchesAddr addr)).getLast? with
  | none =>
    have hfd2 : findDevice addr env.peripherals none = .ok none := by rw [hfd, hm]
    simp [ping, h0, hfd2]
  | some q =>
    have hfd2 : findDevice addr env.peripherals none = .ok (some q) := by rw [hfd, hm]
    simp [ping, h0, hfd2]

lemma read_result_cases (env : Env) (addr uuid : String)
    (h0 : ¬ env.adapterCount = 0) (hall : ∀ p ∈ env.peripherals, p.props.isSome) :
    (read env addr uuid).2 = .ok () ∨
      (read env addr uuid).2 = .error .characteristicNotFound := by
  have hfd := findDevice_eq addr env.peripherals none hall
  cases hm : (env.peripherals.filter (matchesAddr addr)).getLast? with
  | none =>
    have hfd2 : findDevice addr env.peripherals none = .ok none := by rw [hfd, hm]
    left; simp [read, h0, hfd2]
  | some q =>
    have hfd2 : findDevice addr env.peripherals none = .ok (some q) := by rw [hfd, hm]
    cases hfc : q.characteristics.find? (fun a => a.uuid == uuid) with
    | none => right; simp [read, h0, hfd2, hfc]
    | some ch => left; simp [read, h0, hfd2, hfc]

lemma write_result_cases (env : Env) (addr : String)
    (h0 : ¬ env.adapterCount = 0) (hall : ∀ p ∈ env.peripherals, p.props.isSome) :
    (write env addr).2 = .ok () ∨
      (write env addr).2 = .error .characteristicNotFound := by
  have hfd := findDevice_eq addr env.peripherals none hall
  cases hm : (env.peripherals.filter (matchesAddr addr)).getLast? with
  | none =>
    have hfd2 : findDevice addr env.peripherals none = .ok none := by rw [hfd, hm]
    left; simp [write, h0, hfd2]
  | some q =>
    have hfd2 : findDevice addr env.peripherals none = .ok (some q) := by rw [hfd, hm]
    cases hfw : q.characteristics.find? (fun a => a.uuid == CHAR_WRITE) with
    | none => right; simp [write, h0, hfd2, hfw]
    | some chW =>
      cases hfr : q.characteristics.find? (fun a => a.uuid == CHAR_READ) with
      | none => right; simp [write, h0, hfd2, hfw, hfr]
      | some chR => left; simp [write, h0, hfd2, hfw, hfr]

/-- C10: every command aborts with the adapter-`unwrap` panic when the host
reports no adapter, and with the properties-`unwrap` panic when some
discovered peripheral has no properties record; when an adapter exists and
all properties are present, neither panic occurs. -/
theorem adapter_and_properties_unwrap_panics (env : Env) (addr uuid : String) :
    (env.adapterCount = 0 →
      (scan_devices env).2 = .error .adapterMissing ∧
      (ping env addr).2 = .error .adapterMissing ∧
      (read env addr uuid).2 = .error .adapterMissing ∧
      (write env addr).2 = .error .adapterMissing) ∧
    (env.adapterCount ≠ 0 → (∃ p ∈ env.peripherals, p.props = none) →
      (scan_devices env).2 = .error .propertiesMissing ∧
      (ping env addr).2 = .error .propertiesMissing ∧
      (read env addr uuid).2 = .error .propertiesMissing ∧
      (write env addr).2 = .error .propertiesMissing) ∧
    (env.adapterCount ≠ 0 → (∀ p ∈ env.peripherals, p.props.isSome) →
      (scan_devices env).2 ≠ .error .adapterMissing ∧
      (scan_devices env).2 ≠ .error .propertiesMissing ∧
      (ping env addr).2 ≠ .error .adapterMissing ∧
      (ping env addr).2 ≠ .error .propertiesMissing ∧
      (read env addr uuid).2 ≠ .error .adapterMissing ∧
      (read env addr uuid).2 ≠ .error .propertiesMissing ∧
      (write env addr).2 ≠ .error .adapterMissing ∧
      (write env addr).2 ≠ .error .propertiesMissing) := by
  refine ⟨?_, ?_, ?_⟩
  · intro h0
    refine ⟨?_, ?_, ?_, ?_⟩ <;> simp [scan_devices, ping, read, write, h0]
  · intro h0 hex
    have hfd := findDevice_propsMissing addr env.peripherals none hex
    have hpp := printPeripherals_propsMissing env.peripherals hex
    refine ⟨?_, ?_, ?_, ?_⟩ <;> simp [scan_devices, ping, read, write, h0, hfd, hpp]
  · intro h0 hall
    have hscan : (scan_devices env).2 = .ok () := by
      simp [scan_devices, h0, printPeripherals_ok env.peripherals hall]
    have hpingr := ping_result_ok env addr h0 hall
    have hreadr := read_result_cases env addr uuid h0 hall
    have hwriter := write_result_cases env addr h0 hall
    refine ⟨by simp [hscan], by simp [hscan], by simp [hpingr], by simp [hpingr],
      ?_, ?_, ?_, ?_⟩
    · rcases hreadr with h | h <;> simp [h]
    · rcases hreadr with h | h <;> simp [h]
    · rcases hwriter with h | h <;> simp [h]
    · rcases hwriter with h | h <;> simp [h]

/-- C9: in the interactive loop the line buffer is never cleared: the k-th
write's payload is the whitespace-trimmed concatenation of the first k lines
read from standard input (0-indexed: the payload at position k is the
trimmed concatenation of the first k+1 lines). -/
theorem interactive_payload_accumulates (rv : String → List Nat) (w r : String)
    (ls : List String) (k : Nat) (hk : k < ls.length) :
    (payloadsOf (writeLoop rv w r (ls.map .line) "")).get? k
      = some (strTrim (concatStrs (ls.take (k + 1)))) := by
  have h := payloadsOf_writeLoop_get rv w r ls "" k hk
  rwa [String.empty_append] at h

/-- C3 at the failing input: with stdin `"a\nb\n"` the second write's
payload is `"a\nb"` (the accumulated buffer), not `"b"`, and past
end-of-input the loop keeps issuing write/read pairs instead of
terminating after two. -/
theorem scenario4_payloads_diverge :
    payloadsOf (write scenario4Env "AA:BB:CC:DD:EE:01").1
      = ["a", "a\nb", "a\nb", "a\nb"] ∧
    (readsOf (write scenario4Env "AA:BB:CC:DD:EE:01").1).length = 4 := by
  constructor
  · decide
  · decide

/-- C4 at the failing input: after the input is exhausted the loop keeps
writing (three writes for one real line and two end-of-stream reads); the
loop body only exits on a `read_line` error, which does end the command
normally. -/
theorem loop_continues_at_end_of_stream :
    (payloadsOf (write eofEnv "AA:BB:CC:DD:EE:01").1).length = 3 ∧
    (write eofEnv "AA:BB:CC:DD:EE:01").2 = .ok () ∧
    writeLoop (fun _ => []) CHAR_WRITE CHAR_READ [.fail] "" = [] := by
  refine ⟨by decide, rfl, rfl⟩

/-- C7 counterexample: invoked as `write <addr> <char-uuid>` with stdin
`"hello"`, the single write goes to the fixed `CHAR_WRITE`, not to the
characteristic named by the given UUID (which the dispatcher ignores). -/
theorem write_uuid_argument_ignored_counterexample :
    main helloEnv ["ble-util", "write", "AA:BB:CC:DD:EE:01",
        "0000fff1-0000-1000-8000-00805f9b34fb"]
      = write helloEnv "AA:BB:CC:DD:EE:01" ∧
    writesOf (write helloEnv "AA:BB:CC:DD:EE:01").1
      = [(CHAR_WRITE, "hello", .withoutResponse)] ∧
    CHAR_WRITE ≠ "0000fff1-0000-1000-8000-00805f9b34fb" := by
  refine ⟨rfl, by decide, by decide⟩

/-- C7 amended: `write <addr> <char-uuid>` ignores the uuid argument (the
dispatcher passes only the address); given stdin content `"hello"` the
command issues exactly one write, of payload `hello` with no trailing
newline, to the fixed `CHAR_WRITE` characteristic, using without-response
mode. -/
theorem write_command_ignores_uuid_argument (env : Env) (prog addr uuid : String)
    (dev : Peripheral) (chW chR : BleCharacteristic)
    (h0 : env.adapterCount ≠ 0)
    (hdev : findDevice addr env.peripherals none = .ok (some dev))
    (hfw : dev.characteristics.find? (fun a => a.uuid == CHAR_WRITE) = some chW)
    (hfr : dev.characteristics.find? (fun a => a.uuid == CHAR_READ) = some chR)
    (hstdin : env.stdin = [.line "hello"]) :
    main env [prog, "write", addr, uuid] = write env addr ∧
    writesOf (write env addr).1 = [(CHAR_WRITE, "hello", .withoutResponse)] := by
  constructor
  · rfl
  · have hwu : chW.uuid = CHAR_WRITE := by simpa using List.find?_some hfw
    simp [write, h0, hdev, hfw, hfr, hstdin, writeLoop, writesOf,
      List.filterMap_cons, hwu]
    decide

theorem locate_returns_last_exact_match_witness :
    ∃ p pr, findDevice "AA:BB:CC:DD:EE:01" dupEnv.peripherals none = .ok (some p) ∧
      (dupEnv.peripherals.filter (matchesAddr "AA:BB:CC:DD:EE:01")).getLast? = some p ∧
      p.props = some pr ∧ pr.address = "AA:BB:CC:DD:EE:01" :=
  locate_returns_last_exact_match dupEnv "AA:BB:CC:DD:EE:01" (by decide) (by decide)

theorem device_not_found_clean_exit_witness :
    ping helloEnv "XX"
      = ([.startScan, .sleep 3, .printErr "Unable to find device"], .ok ()) ∧
    read helloEnv "XX" "zz"
      = ([.startScan, .sleep 3, .printErr "Unable to find device"], .ok ()) ∧
    write helloEnv "XX"
      = ([.startScan, .sleep 2, .printErr "Unable to find device"], .ok ()) :=
  device_not_found_clean_exit helloEnv "XX" "zz" (by decide) (by decide) (by decide)

theorem absent_characteristic_aborts_witness :
    (read helloEnv "AA:BB:CC:DD:EE:01" "zz").2 = .error .characteristicNotFound ∧
    (write bareEnv "BB:BB:CC:DD:EE:02").2 = .error .characteristicNotFound :=
  ⟨(absent_characteristic_aborts_without_access helloEnv "AA:BB:CC:DD:EE:01" "zz" uartDev
      (by decide) rfl (by decide)).1.1,
   ((absent_characteristic_aborts_without_access bareEnv "BB:BB:CC:DD:EE:02" "zz" bareDev
      (by decide) rfl (by decide)).2 (.inl (by decide))).1⟩

theorem write_mode_fixed_uuids_witness :
    CHAR_WRITE = "6e400002-b5a3-f393-e0a9-e50e24dcca9e" ∧
    CHAR_READ = "6e400003-b5a3-f393-e0a9-e50e24dcca9e" :=
  ⟨(write_mode_fixed_uuids_without_response helloEnv "AA:BB:CC:DD:EE:01").1,
   (write_mode_fixed_uuids_without_response helloEnv "AA:BB:CC:DD:EE:01").2.1⟩

theorem modes_connect_then_discover_witness :
    ∃ j k ej ek, j < k ∧ k < 5 ∧
      (read helloEnv "AA:BB:CC:DD:EE:01"
        "0000fff1-0000-1000-8000-00805f9b34fb").1.get? j = some ej ∧
      ej.isConnect = true ∧
      (read helloEnv "AA:BB:CC:DD:EE:01"
        "0000fff1-0000-1000-8000-00805f9b34fb").1.get? k = some ek ∧
      ek.isDiscover = true :=
  (modes_connect_then_discover_before_access helloEnv "AA:BB:CC:DD:EE:01"
      "0000fff1-0000-1000-8000-00805f9b34fb").2.2.1 5
    (Event.readChar "0000fff1-0000-1000-8000-00805f9b34fb") (by decide) (by decide)

theorem interactive_payload_accumulates_witness :
    (payloadsOf (writeLoop (fun _ => []) CHAR_WRITE CHAR_READ
        (["a\n", "b\n"].map .line) "")).get? 1
      = some (strTrim (concatStrs (["a\n", "b\n"].take 2))) :=
  interactive_payload_accumulates (fun _ => []) CHAR_WRITE CHAR_READ
    ["a\n", "b\n"] 1 (by decide)

theorem write_command_ignores_uuid_argument_witness :
    main helloEnv ["ble-util", "write", "AA:BB:CC:DD:EE:01", "zz"]
      = write helloEnv "AA:BB:CC:DD:EE:01" ∧
    writesOf (write helloEnv "AA:BB:CC:DD:EE:01").1
      = [(CHAR_WRITE, "hello", .withoutResponse)] :=
  write_command_ignores_uuid_argument helloEnv "ble-util" "AA:BB:CC:DD:EE:01" "zz"
    uartDev ⟨CHAR_WRITE, cpNone⟩ ⟨CHAR_READ, cpNone⟩ (by decide) rfl rfl rfl rfl

theorem adapter_and_properties_unwrap_panics_witness :
    (scan_devices noAdapterEnv).2 = .error .adapterMissing ∧
    (ping badPropsEnv "AA:BB:CC:DD:EE:01").2 = .error .propertiesMissing ∧
    (scan_devices helloEnv).2 ≠ .error .adapterMissing := by
  refine ⟨((adapter_and_properties_unwrap_panics noAdapterEnv "A" "u").1 rfl).1,
    (((adapter_and_properties_unwrap_panics badPropsEnv "AA:BB:CC:DD:EE:01" "u").2.1
      (by decide) ⟨_, by exact List.mem_cons_self _ _, rfl⟩).2.1),
    (((adapter_and_properties_unwrap_panics helloEnv "A" "u").2.2
      (by decide) (by decide)).1)⟩

end BleUtil
